import Mathlib

/-!
# Verification of `CoolProp/Plots/Common.py`

A shallow embedding of the isoline-plotting core of CoolProp's
`wrappers/Python/CoolProp/Plots/Common.py` together with theorems checking the
natural-language specification against it.

Python floats are modelled as rationals (`ℚ`); a float that may be NaN is
modelled as `Option ℚ` with `none` playing the role of `np.NaN`.  Python
exceptions are modelled with `Except PyErr`; every stateful operation
additionally returns the list of observable events (EOS `state.update` calls
and emitted warnings) that happened before it returned or raised.
-/

namespace CoolPropPlots

/-! ## External constants

The numeric parameter indices (`CoolProp.iT`, `CoolProp.iP`, ...) and input-pair
constants (`CoolProp.QT_INPUTS`, ...) live in the CoolProp C++ core, outside the
plotting module.  Their concrete values are irrelevant to the plotting code as
long as they are pairwise distinct; the values below follow the order of the
`parameters` and `input_pairs` enumerations of the CoolProp core. -/

/-- Modelled from the spec: the trivial-parameter index `iT_critical` of the
external CoolProp parameter enumeration. -/
def iT_critical : Nat := 7
/-- Modelled from the spec: the parameter index `iP_critical`. -/
def iP_critical : Nat := 9
/-- Modelled from the spec: the parameter index `iT_triple`. -/
def iT_triple : Nat := 11
/-- Modelled from the spec: the parameter index `iT_min`. -/
def iT_min : Nat := 13
/-- Modelled from the spec: the parameter index `iT_max`. -/
def iT_max : Nat := 14
/-- Modelled from the spec: the parameter index `iT` (temperature). -/
def iT : Nat := 18
/-- Modelled from the spec: the parameter index `iP` (pressure). -/
def iP : Nat := 19
/-- Modelled from the spec: the parameter index `iQ` (vapour quality). -/
def iQ : Nat := 20
/-- Modelled from the spec: the parameter index `iDmass` (mass density). -/
def iDmass : Nat := 29
/-- Modelled from the spec: the parameter index `iHmass` (specific enthalpy). -/
def iHmass : Nat := 30
/-- Modelled from the spec: the parameter index `iSmass` (specific entropy). -/
def iSmass : Nat := 31
/-- Modelled from the spec: the parameter index `iUmass` (specific internal energy). -/
def iUmass : Nat := 36

/-- Modelled from the spec: the input-pair constant `QT_INPUTS`. -/
def QT_INPUTS : Nat := 1
/-- Modelled from the spec: the input-pair constant `PQ_INPUTS`. -/
def PQ_INPUTS : Nat := 2
/-- Modelled from the spec: the input-pair constant `PT_INPUTS`. -/
def PT_INPUTS : Nat := 9

/-! ## Exceptions and observable events -/

/-- The Python exceptions the plotting module can raise: a failed dictionary
lookup (`KeyError`), a `ValueError` with its message, a missing attribute
(`AttributeError`), and a domain error raised by the EOS backend inside
`state.update`. -/
inductive PyErr where
  | keyError (key : Nat)
  | valueError (msg : String)
  | attributeError (msg : String)
  | stateError
  deriving Repr, DecidableEq

/-- Observable events of a call: EOS `state.update` invocations (successful or
raising) and the warnings emitted via `warnings.warn`. -/
inductive Event where
  /-- a `state.update(pair, v0, v1)` call was attempted -/
  | updateCall (pair : Nat) (v0 v1 : ℚ)
  /-- the per-sample warning `"An error occurred for inputs v0, v1 with index idx"` -/
  | warnSampleError (v0 v1 : ℚ) (idx : Nat)
  /-- the warning `"Please use calc_sat_range ... Input ranges are discarded."` -/
  | warnDiscard
  /-- the warning `"Your minimum/maximum <prop> has been ignored, s is not between fmin and fmax"` -/
  | warnIgnoredBound (prop : String) (isMax : Bool) (s fmin fmax : ℚ)
  /-- the deprecation warning of `BasePlot.__sat_bounds` -/
  | warnDeprecated
  deriving Repr, DecidableEq

/-- Is an event an EOS `state.update` call? -/
def Event.isUpdate : Event → Bool
  | .updateCall _ _ _ => true
  | _ => false

/-! ## Small numpy/Python helpers -/

/-- Python dictionary lookup on an association list: `d[k]`. -/
def dictLookup {α : Type} (d : List (Nat × α)) (k : Nat) : Option α :=
  (d.find? (fun p => p.1 == k)).map (fun p => p.2)

/-- `np.resize(l, n)`: repeat the data of `l` cyclically until it has `n`
elements. -/
def npResize (l : List ℚ) (n : Nat) : List ℚ :=
  (List.range n).map (fun i => l.getD (i % l.length) 0)

/-- `np.linspace(a, b, n)`: `n` evenly spaced samples from `a` to `b`,
endpoints included. -/
def npLinspace (a b : ℚ) (n : Nat) : List ℚ :=
  if n = 0 then []
  else if n = 1 then [a]
  else (List.range n).map (fun i => a + (b - a) * i / (n - 1))

/-- Insert a keyed entry into a key-sorted list (helper for `sortByKey`). -/
def insertByKey {α : Type} (p : Nat × α) : List (Nat × α) → List (Nat × α)
  | [] => [p]
  | q :: qs => if p.1 ≤ q.1 then p :: q :: qs else q :: insertByKey p qs

/-- Python's `sorted` on a list of `(key, value)` pairs with pairwise distinct
keys: sort by the key. -/
def sortByKey {α : Type} (l : List (Nat × α)) : List (Nat × α) :=
  l.foldr insertByKey []

/-- Python `min` over a nonempty list (`0` on the empty list, unreachable). -/
def listMin (l : List ℚ) : ℚ :=
  match l with
  | [] => 0
  | h :: t => t.foldl min h

/-- Python `max` over a nonempty list (`0` on the empty list, unreachable). -/
def listMax (l : List ℚ) : ℚ :=
  match l with
  | [] => 0
  | h :: t => t.foldl max h

/-! ## `BaseQuantity` / `BaseDimension` (affine unit conversion) -/

/-- `BaseQuantity` together with the label metadata of `BaseDimension`: an
affine SI ↔ display-unit conversion.  The Python class pair is flattened into
one structure; the numeric fields are those of `BaseQuantity`. -/
structure BaseDimension where
  add_SI : ℚ := 0
  mul_SI : ℚ := 1
  off_SI : ℚ := 0
  label : String := ""
  symbol : String := ""
  unit : String := ""
  deriving Repr, DecidableEq

/-- `BaseQuantity.from_SI(value) = ((value + off_SI) * mul_SI) + add_SI`. -/
def BaseDimension.from_SI (d : BaseDimension) (value : ℚ) : ℚ :=
  (value + d.off_SI) * d.mul_SI + d.add_SI

/-- `BaseQuantity.to_SI(value) = (value - add_SI) / mul_SI - off_SI`. -/
def BaseDimension.to_SI (d : BaseDimension) (value : ℚ) : ℚ :=
  (value - d.add_SI) / d.mul_SI - d.off_SI

/-- `UnitSystem`: one dimension per supported quantity. -/
structure UnitSystem where
  D : BaseDimension
  H : BaseDimension
  P : BaseDimension
  S : BaseDimension
  T : BaseDimension
  U : BaseDimension
  Q : BaseDimension
  deriving Repr, DecidableEq

/-- `UnitSystem.dimensions`: the mapping from parameter index to dimension. -/
def UnitSystem.dimensions (s : UnitSystem) : List (Nat × BaseDimension) :=
  [(iDmass, s.D), (iHmass, s.H), (iP, s.P), (iSmass, s.S),
   (iT, s.T), (iUmass, s.U), (iQ, s.Q)]

/-- The `SIunits` unit system: all conversions are the identity. -/
def SIunits : UnitSystem where
  D := { label := "Density", symbol := "\\rho", unit := "kg/m$^3$" }
  H := { label := "Specific Enthalpy", symbol := "h", unit := "J/kg" }
  P := { label := "Pressure", symbol := "p", unit := "Pa" }
  S := { label := "Specific Entropy", symbol := "s", unit := "J/kg/K" }
  T := { label := "Temperature", symbol := "T", unit := "K" }
  U := { label := "Specific Internal Energy", symbol := "u", unit := "J/kg" }
  Q := { label := "Vapour Quality", symbol := "x", unit := "" }

/-- The `KSIunits` unit system: `SIunits` with enthalpy, pressure, entropy and
internal energy rescaled by `1e-3` (the Python constructor mutates a fresh
`SIunits` instance). -/
def KSIunits : UnitSystem :=
  let s := SIunits
  { s with
    H := { s.H with mul_SI := 1/1000, unit := "kJ/kg" }
    P := { s.P with mul_SI := 1/1000, unit := "kPa" }
    S := { s.S with mul_SI := 1/1000, unit := "kJ/kg/K" }
    U := { s.U with mul_SI := 1/1000, unit := "kJ/kg" } }

/-- The `EURunits` unit system: `KSIunits` with pressure in bar and
temperature in degrees Celsius. -/
def EURunits : UnitSystem :=
  let s := KSIunits
  { s with
    P := { s.P with mul_SI := 1/100000, unit := "bar" }
    T := { s.T with add_SI := -(5463/20), unit := "° C" } }

/-! ## The EOS backend -/

/-- Modelled from the spec: the EOS backend (`AbstractState` plus the
module-level `CP.generate_update_pair`), which lives in the CoolProp core
outside the plotting module.  Per the spec's external-interface contract:
`trivialOut` is `trivial_keyed_output` (fluid constants, no state needed);
`updOk pair v0 v1` tells whether `state.update(pair, v0, v1)` succeeds (it
raises a domain error otherwise); `out pair v0 v1 key` is `keyed_output(key)`
read after a successful `state.update(pair, v0, v1)` (the handle's state is
fully determined by the last successful update); `genUpdatePair a b` is
`generate_update_pair(a, 0.0, b, 1.0)` projected to the canonical pair token
and the first returned value (`0.0` when the backend keeps the first-named
property in position 0, `1.0` when it swaps). -/
structure EosModel where
  trivialOut : Nat → ℚ
  updOk : Nat → ℚ → ℚ → Bool
  out : Nat → ℚ → ℚ → Nat → ℚ
  genUpdatePair : Nat → Nat → Nat × ℚ

/-- `T_small`: derived in the `state` setter as
`trivial_keyed_output(iT_critical) * small`. -/
def T_small (m : EosModel) (small : ℚ) : ℚ := m.trivialOut iT_critical * small

/-- `P_small`: derived in the `state` setter as
`trivial_keyed_output(iP_critical) * small`. -/
def P_small (m : EosModel) (small : ℚ) : ℚ := m.trivialOut iP_critical * small

/-! ## `Base2DObject` constants and `IsoLine.XY_SWITCH` -/

/-- Diagram key `TS = iT*10 + iSmass`. -/
def TS : Nat := iT * 10 + iSmass
/-- Diagram key `PH = iP*10 + iHmass`. -/
def PH : Nat := iP * 10 + iHmass
/-- Diagram key `HS = iHmass*10 + iSmass`. -/
def HS : Nat := iHmass * 10 + iSmass
/-- Diagram key `PS = iP*10 + iSmass`. -/
def PS : Nat := iP * 10 + iSmass
/-- Diagram key `PD = iP*10 + iDmass`. -/
def PD : Nat := iP * 10 + iDmass
/-- Diagram key `TD = iT*10 + iDmass`. -/
def TD : Nat := iT * 10 + iDmass
/-- Diagram key `PT = iP*10 + iT`. -/
def PT : Nat := iP * 10 + iT
/-- Diagram key `PU = iP*10 + iUmass` (declared but not a supported plot). -/
def PU : Nat := iP * 10 + iUmass

/-- `IsoLine.XY_SWITCH`: the per-held-property decision table.  The inner
values are the Python tri-state `True` / `False` / `None`, modelled as
`Option Bool`; a key absent from a dictionary raises `KeyError` on lookup. -/
def XY_SWITCH : List (Nat × List (Nat × Option Bool)) :=
  [(iDmass, [(TS, some true),  (PH, some true),  (HS, some false), (PS, some true),
             (PD, none),       (TD, none),       (PT, some false)]),
   (iHmass, [(TS, some false), (PH, none),       (HS, none),       (PS, some true),
             (PD, some true),  (TD, some false), (PT, some false)]),
   (iP,     [(TS, some false), (PH, none),       (HS, some false), (PS, none),
             (PD, none),       (TD, some false), (PT, none)]),
   (iSmass, [(TS, none),       (PH, some true),  (HS, none),       (PS, none),
             (PD, some true),  (TD, some false), (PT, some true)]),
   (iT,     [(TS, none),       (PH, some true),  (HS, some false), (PS, some false),
             (PD, some false), (TD, none),       (PT, none)]),
   (iQ,     [(TS, some true),  (PH, some true),  (HS, some true),  (PS, some true),
             (PD, some true),  (TD, some true),  (PT, some false)])]

/-- The nested lookup `XY_SWITCH[i][yi*10 + xi]` as a partial map: `none` when
either dictionary key is missing (Python `KeyError`), `some v` with the
tri-state entry otherwise. -/
def xySwitchEntry (i xi yi : Nat) : Option (Option Bool) :=
  (dictLookup XY_SWITCH i).bind (fun inner => dictLookup inner (yi * 10 + xi))

/-- `IsoLine._get_update_pair`: resolve held property `i` and diagram axes
`(xi, yi)` into the slot permutation `(ipos, xpos, ypos)` and the backend
input-pair token. -/
def getUpdatePair (m : EosModel) (i xi yi : Nat) :
    Except PyErr (Nat × Nat × Nat × Nat) :=
  match dictLookup XY_SWITCH i with
  | none => .error (.keyError i)
  | some inner =>
    match dictLookup inner (yi * 10 + xi) with
    | none => .error (.keyError (yi * 10 + xi))
    | some none => .error (.valueError "This isoline cannot be calculated!")
    | some (some sw) =>
      let po := if sw then m.genUpdatePair i yi else m.genUpdatePair i xi
      let pair := po.1
      -- `out1 == 0.0` means the backend kept the held property first
      let swap := ¬ (po.2 = 0)
      if ¬ sw ∧ ¬ swap then .ok (0, 1, 2, pair)
      else if sw ∧ ¬ swap then .ok (0, 2, 1, pair)
      else if ¬ sw ∧ swap then .ok (1, 0, 2, pair)
      else if sw ∧ swap then .ok (1, 2, 0, pair)
      else .error (.valueError "Check the code, this should not happen!")

/-! ## `Base2DObject._get_sat_bounds` -/

/-- `BasePlot.PROPERTIES`: display names of the iteration keys.  Note this
attribute exists on `BasePlot` only, not on `Base2DObject`/`IsoLine`. -/
def PROPERTIES : List (Nat × String) :=
  [(iDmass, "density"), (iHmass, "specific enthalpy"), (iP, "pressure"),
   (iSmass, "specific entropy"), (iT, "temperature"),
   (iUmass, "specific internal energy")]

/-- The `ValueError` message of `_get_sat_bounds` for an unsupported kind. -/
def satBoundsKindMsg : String :=
  "Saturation boundaries have to be defined in T or P"

/-- Check one caller-supplied bound hint against `(fluid_min, fluid_max)`:
use it when strictly inside, otherwise warn (formatting
`self.PROPERTIES[kind]`, which raises `AttributeError` when the receiver has
no `PROPERTIES` attribute) and fall back to the fluid bound.  Returns the
chosen bound and the emitted events. -/
def checkBoundHint (props : Option (List (Nat × String))) (kind : Nat)
    (isMax : Bool) (fluid_min fluid_max fallback : ℚ) (hint : Option ℚ) :
    Except PyErr ℚ × List Event :=
  match hint with
  | none => (.ok fallback, [])
  | some s =>
    if fluid_min < s ∧ s < fluid_max then (.ok s, [])
    else
      match props with
      | none => (.error (.attributeError "PROPERTIES"), [])
      | some tbl =>
        match dictLookup tbl kind with
        | none => (.error (.keyError kind), [])
        | some name =>
          (.ok fallback, [.warnIgnoredBound name isMax s fluid_min fluid_max])

/-- `Base2DObject._get_sat_bounds(kind, smin, smax)`: saturation-range limits
in temperature or pressure.  `props` is the receiver's `PROPERTIES` attribute
(`none` for an `IsoLine` receiver, `some PROPERTIES` for a `BasePlot`). -/
def getSatBounds (m : EosModel) (props : Option (List (Nat × String)))
    (small : ℚ) (kind : Nat) (smin smax : Option ℚ) :
    Except PyErr (ℚ × ℚ) × List Event :=
  let T_triple := m.trivialOut iT_triple
  let T_min := m.trivialOut iT_min
  let t0 := max T_triple T_min + T_small m small
  if m.updOk QT_INPUTS 0 t0 then
    let ev0 : List Event := [.updateCall QT_INPUTS 0 t0]
    let bounds : Except PyErr (ℚ × ℚ) :=
      if kind = iP then
        .ok (m.out QT_INPUTS 0 t0 iP, m.trivialOut iP_critical - P_small m small)
      else if kind = iT then
        .ok (m.out QT_INPUTS 0 t0 iT, m.trivialOut iT_critical - T_small m small)
      else .error (.valueError satBoundsKindMsg)
    match bounds with
    | .error e => (.error e, ev0)
    | .ok (fluid_min, fluid_max) =>
      match checkBoundHint props kind false fluid_min fluid_max fluid_min smin with
      | (.error e, ev1) => (.error e, ev0 ++ ev1)
      | (.ok sat_min, ev1) =>
        match checkBoundHint props kind true fluid_min fluid_max fluid_max smax with
        | (.error e, ev2) => (.error e, ev0 ++ ev1 ++ ev2)
        | (.ok sat_max, ev2) => (.ok (sat_min, sat_max), ev0 ++ ev1 ++ ev2)
  else (.error .stateError, [.updateCall QT_INPUTS 0 t0])

/-! ## The per-sample sweep loops -/

/-- One iteration of the `calc_range` sweep loop: attempt
`state.update(pair, v0, v1)` and read back the output property `outKey`; on
failure warn and record `np.NaN` (`none`). -/
def sweepOne (m : EosModel) (pair outKey : Nat) (v0 v1 : ℚ) (idx : Nat) :
    Option ℚ × List Event :=
  if m.updOk pair v0 v1 then
    (some (m.out pair v0 v1 outKey), [.updateCall pair v0 v1])
  else
    (none, [.updateCall pair v0 v1, .warnSampleError v0 v1 idx])

/-- The `calc_range` sweep loop over all sample indices. -/
def sweepOut (m : EosModel) (pair outKey : Nat) (v0 v1 : List ℚ) :
    List (Option ℚ) × List Event :=
  let rs := (List.range v0.length).map
    (fun j => sweepOne m pair outKey (v0.getD j 0) (v1.getD j 0) j)
  (rs.map (fun r => r.1), (rs.map (fun r => r.2)).flatten)

/-- One iteration of the `calc_sat_range` loop: update then read back both
axis properties; on failure warn and record `np.NaN` in both. -/
def satSweepOne (m : EosModel) (xi yi : Nat) (pair : Nat) (v0 v1 : ℚ)
    (idx : Nat) : (Option ℚ × Option ℚ) × List Event :=
  if m.updOk pair v0 v1 then
    ((some (m.out pair v0 v1 xi), some (m.out pair v0 v1 yi)),
     [.updateCall pair v0 v1])
  else
    ((none, none), [.updateCall pair v0 v1, .warnSampleError v0 v1 idx])

/-- The `calc_sat_range` sweep loop over all sample indices. -/
def satSweepOut (m : EosModel) (xi yi : Nat) (pair : Nat) (one two : List ℚ) :
    (List (Option ℚ) × List (Option ℚ)) × List Event :=
  let rs := (List.range one.length).map
    (fun j => satSweepOne m xi yi pair (one.getD j 0) (two.getD j 0) j)
  ((rs.map (fun r => r.1.1), rs.map (fun r => r.1.2)),
   (rs.map (fun r => r.2)).flatten)

/-! ## `IsoLine.calc_sat_range` and `IsoLine.calc_range` -/

/-- `IsoLine.calc_sat_range(Trange, Prange, num)`.  Returns the new
`(self.x, self.y)` arrays (`none` entries are `np.NaN`). -/
def calcSatRange (m : EosModel) (small : ℚ) (xi yi : Nat) (value : ℚ)
    (Trange Prange : Option (List ℚ)) (num : Nat) :
    Except PyErr (List (Option ℚ) × List (Option ℚ)) × List Event :=
  match Trange with
  | some ts =>
    let one := npResize [value] ts.length
    let (xy, evs) := satSweepOut m xi yi QT_INPUTS one ts
    (.ok xy, evs)
  | none =>
    match Prange with
    | some ps =>
      let two := npResize [value] ps.length
      let (xy, evs) := satSweepOut m xi yi PQ_INPUTS ps two
      (.ok xy, evs)
    | none =>
      -- the receiver is an `IsoLine`, which has no `PROPERTIES` attribute
      match getSatBounds m none small iT none none with
      | (.error e, evs) => (.error e, evs)
      | (.ok (T_lo, T_hi), evs0) =>
        let two := npLinspace T_lo T_hi num
        let one := npResize [value] two.length
        let (xy, evs) := satSweepOut m xi yi QT_INPUTS one two
        (.ok xy, evs0 ++ evs)

/-- The `ValueError` message of `calc_range` for a missing input array. -/
def missingInputMsg : String :=
  "One required input is missing, make sure to supply the correct xvals or yvals."

/-- The sample count `calc_range` forwards to `calc_sat_range` for a quality
isoline: the size of the supplied array, or the default `200`. -/
def qualityNum (xvals yvals : Option (List ℚ)) : Nat :=
  match xvals with
  | some l => l.length
  | none =>
    match yvals with
    | some l => l.length
    | none => 200

/-- The final `self.x`/`self.y` assignment loop of `calc_range`: the last slot
whose property index equals `target` wins (`none` when never assigned, which
cannot happen since `idxs` is a permutation of the three property indices). -/
def pickLast (idxs : List Nat) (vals : List (List (Option ℚ))) (target : Nat) :
    Option (List (Option ℚ)) :=
  (idxs.zip vals).foldl (fun acc p => if p.1 = target then some p.2 else acc) none

/-- `IsoLine.calc_range(xvals, yvals)`.  Returns the new
`(self.x, self.y)` arrays (`none` when an array was never assigned). -/
def calcRange (m : EosModel) (small : ℚ) (i xi yi : Nat) (value : ℚ)
    (xvals yvals : Option (List ℚ)) :
    Except PyErr (Option (List (Option ℚ)) × Option (List (Option ℚ))) × List Event :=
  if i = iQ then
    match calcSatRange m small xi yi value none none (qualityNum xvals yvals) with
    | (.error e, evs) => (.error e, Event.warnDiscard :: evs)
    | (.ok xy, evs) => (.ok (some xy.1, some xy.2), Event.warnDiscard :: evs)
  else
    match getUpdatePair m i xi yi with
    | .error e => (.error e, [])
    | .ok (ipos, xpos, ypos, pair) =>
      let idxs := (sortByKey [(ipos, i), (xpos, xi), (ypos, yi)]).map (fun p => p.2)
      let vals := (sortByKey [(ipos, some [value]), (xpos, xvals), (ypos, yvals)]).map
        (fun p => p.2)
      match vals with
      | [some v0, some v1, _] =>
        let w := if v0.length > v1.length then (v0, npResize v1 v0.length)
                 else if v0.length < v1.length then (npResize v0 v1.length, v1)
                 else (v0, v1)
        let (out2, evs) := sweepOut m pair (idxs.getD 2 0) w.1 w.2
        let valsF := [w.1.map some, w.2.map some, out2]
        (.ok (pickLast idxs valsF xi, pickLast idxs valsF yi), evs)
      | _ => (.error (.valueError missingInputMsg), [])

/-! ## `BasePlot.get_axis_limits` -/

/-- The mutable matplotlib axis object, reduced to what `get_axis_limits`
reads and writes: the autoscale flags and the current x/y limits. -/
structure Axis where
  autoscalex : Bool
  autoscaley : Bool
  xlim : ℚ × ℚ
  ylim : ℚ × ℚ
  deriving Repr, DecidableEq

/-- The corner-evaluation loop of `get_axis_limits`: for each `(P, T)` corner
run `state.update(PT_INPUTS, P, T)` (failures are not caught there and
propagate) and read back the two requested properties. -/
def cornerEval (m : EosModel) (x_index y_index : Nat) :
    List (ℚ × ℚ) → Except PyErr (List ℚ × List ℚ) × List Event
  | [] => (.ok ([], []), [])
  | (P, T) :: rest =>
    if m.updOk PT_INPUTS P T then
      match cornerEval m x_index y_index rest with
      | (.ok (Xs, Ys), evs) =>
        (.ok (m.out PT_INPUTS P T x_index :: Xs, m.out PT_INPUTS P T y_index :: Ys),
         Event.updateCall PT_INPUTS P T :: evs)
      | (.error e, evs) => (.error e, Event.updateCall PT_INPUTS P T :: evs)
    else (.error .stateError, [.updateCall PT_INPUTS P T])

/-- `BasePlot.get_axis_limits(x_index, y_index)`.  `sx`/`sy` are the plot's
own axis properties (`self._x_index`, `self._y_index`); `ox`/`oy` the optional
requested properties.  Returns `[xmin, xmax, ymin, ymax]` and the updated
axis object. -/
def get_axis_limits (m : EosModel) (sys : UnitSystem) (ax : Axis)
    (small : ℚ) (sx sy : Nat) (ox oy : Option Nat) :
    Except PyErr (List ℚ × Axis) × List Event :=
  let x_index := ox.getD sx
  let y_index := oy.getD sy
  let hi_factor : ℚ := 2
  let lo_factor : ℚ := 11/10
  if x_index ≠ sx ∨ y_index ≠ sy ∨ ax.autoscalex ∨ ax.autoscaley then
    match getSatBounds m (some PROPERTIES) small iT none none with
    | (.error e, evs) => (.error e, evs)
    | (.ok (T_lo, T_hi), evs1) =>
      match getSatBounds m (some PROPERTIES) small iP none none with
      | (.error e, evs) => (.error e, evs1 ++ evs)
      | (.ok (P_lo, P_hi), evs2) =>
        -- T is the outer loop variable, P the inner one
        let corners :=
          ([lo_factor * T_lo, min (hi_factor * T_hi) (m.trivialOut iT_max)].map
            (fun T => [lo_factor * P_lo, hi_factor * P_hi].map (fun P => (P, T)))).flatten
        match cornerEval m x_index y_index corners with
        | (.error e, evs) => (.error e, evs1 ++ evs2 ++ evs)
        | (.ok (Xs, Ys), evs3) =>
          match dictLookup sys.dimensions x_index, dictLookup sys.dimensions y_index with
          | some dimx, some dimy =>
            let x_lim := (dimx.from_SI (listMin Xs), dimx.from_SI (listMax Xs))
            let y_lim := (dimy.from_SI (listMin Ys), dimy.from_SI (listMax Ys))
            let xr := if x_index = sx then
                        (if ax.autoscalex then (x_lim, some x_lim) else (ax.xlim, none))
                      else (x_lim, none)
            let yr := if y_index = sy then
                        (if ax.autoscaley then (y_lim, some y_lim) else (ax.ylim, none))
                      else (y_lim, none)
            let ax1 := { ax with xlim := (xr.2.getD ax.xlim), ylim := (yr.2.getD ax.ylim) }
            (.ok ([xr.1.1, xr.1.2, yr.1.1, yr.1.2], ax1), evs1 ++ evs2 ++ evs3)
          | none, _ => (.error (.keyError x_index), evs1 ++ evs2 ++ evs3)
          | _, none => (.error (.keyError y_index), evs1 ++ evs2 ++ evs3)
  else
    (.ok ([ax.xlim.1, ax.xlim.2, ax.ylim.1, ax.ylim.2], ax), [])

/-- The default-limit computation as the specification words it: the four
corners are `(loFactor*T_lo, hiFactor*T_hi) × (loFactor*P_lo, hiFactor*P_hi)`
with no clamping of the upper temperature corner.  Kept separate so it can be
compared with `get_axis_limits` (which clamps the upper temperature corner to
the fluid's `T_max`). -/
def get_axis_limits_spec (m : EosModel) (sys : UnitSystem) (ax : Axis)
    (small : ℚ) (sx sy : Nat) (ox oy : Option Nat) :
    Except PyErr (List ℚ × Axis) × List Event :=
  let x_index := ox.getD sx
  let y_index := oy.getD sy
  let hi_factor : ℚ := 2
  let lo_factor : ℚ := 11/10
  if x_index ≠ sx ∨ y_index ≠ sy ∨ ax.autoscalex ∨ ax.autoscaley then
    match getSatBounds m (some PROPERTIES) small iT none none with
    | (.error e, evs) => (.error e, evs)
    | (.ok (T_lo, T_hi), evs1) =>
      match getSatBounds m (some PROPERTIES) small iP none none with
      | (.error e, evs) => (.error e, evs1 ++ evs)
      | (.ok (P_lo, P_hi), evs2) =>
        let corners :=
          ([lo_factor * T_lo, hi_factor * T_hi].map
            (fun T => [lo_factor * P_lo, hi_factor * P_hi].map (fun P => (P, T)))).flatten
        match cornerEval m x_index y_index corners with
        | (.error e, evs) => (.error e, evs1 ++ evs2 ++ evs)
        | (.ok (Xs, Ys), evs3) =>
          match dictLookup sys.dimensions x_index, dictLookup sys.dimensions y_index with
          | some dimx, some dimy =>
            let x_lim := (dimx.from_SI (listMin Xs), dimx.from_SI (listMax Xs))
            let y_lim := (dimy.from_SI (listMin Ys), dimy.from_SI (listMax Ys))
            let xr := if x_index = sx then
                        (if ax.autoscalex then (x_lim, some x_lim) else (ax.xlim, none))
                      else (x_lim, none)
            let yr := if y_index = sy then
                        (if ax.autoscaley then (y_lim, some y_lim) else (ax.ylim, none))
                      else (y_lim, none)
            let ax1 := { ax with xlim := (xr.2.getD ax.xlim), ylim := (yr.2.getD ax.ylim) }
            (.ok ([xr.1.1, xr.1.2, yr.1.1, yr.1.2], ax1), evs1 ++ evs2 ++ evs3)
          | none, _ => (.error (.keyError x_index), evs1 ++ evs2 ++ evs3)
          | _, none => (.error (.keyError y_index), evs1 ++ evs2 ++ evs3)
  else
    (.ok ([ax.xlim.1, ax.xlim.2, ax.ylim.1, ax.ylim.2], ax), [])

/-! ## Theorems -/

/-- The affine conversions of a `BaseDimension` are mutually inverse whenever
the scale factor is nonzero. -/
theorem BaseDimension.roundtrip (d : BaseDimension) (hm : d.mul_SI ≠ 0) (x : ℚ) :
    d.to_SI (d.from_SI x) = x ∧ d.from_SI (d.to_SI x) = x := by
  unfold BaseDimension.to_SI BaseDimension.from_SI
  constructor
  · field_simp
  · field_simp
    ring

/-- C4: for every `Dimension` of every `UnitSystem` (`SI`, `KSI`, `EUR`) and
every value `x`, `to_SI (from_SI x) = x` and `from_SI (to_SI x) = x`: the two
affine conversions are exact inverses (exactly, over `ℚ`). -/
theorem units_roundtrip :
    ∀ sys ∈ [SIunits, KSIunits, EURunits], ∀ p ∈ sys.dimensions, ∀ x : ℚ,
      p.2.to_SI (p.2.from_SI x) = x ∧ p.2.from_SI (p.2.to_SI x) = x := by
  intro sys hsys p hp x
  fin_cases hsys <;>
  · simp only [UnitSystem.dimensions, SIunits, KSIunits, EURunits,
      List.mem_cons, List.not_mem_nil, or_false] at hp
    rcases hp with h | h | h | h | h | h | h <;>
    · subst h
      exact BaseDimension.roundtrip _ (by norm_num) x

/-- Witness for C4 at the SI temperature dimension and `x = 300`. -/
theorem units_roundtrip_witness :
    SIunits ∈ [SIunits, KSIunits, EURunits] ∧
      (iT, SIunits.T) ∈ SIunits.dimensions ∧
      (SIunits.T.to_SI (SIunits.T.from_SI 300) = 300 ∧
       SIunits.T.from_SI (SIunits.T.to_SI 300) = 300) :=
  ⟨by simp, by simp [UnitSystem.dimensions],
   units_roundtrip SIunits (by simp) (iT, SIunits.T)
     (by simp [UnitSystem.dimensions]) 300⟩

/-- `_get_update_pair` only ever returns one of the four slot permutations of
the 2×2 switch-by-swap table. -/
theorem getUpdatePair_perm (m : EosModel) (i xi yi a b c p : Nat)
    (h : getUpdatePair m i xi yi = .ok (a, b, c, p)) :
    (a, b, c) = (0, 1, 2) ∨ (a, b, c) = (0, 2, 1) ∨
      (a, b, c) = (1, 0, 2) ∨ (a, b, c) = (1, 2, 0) := by
  unfold getUpdatePair at h
  cases h1 : dictLookup XY_SWITCH i
  · simp [h1] at h
  case some inner =>
    cases h2 : dictLookup inner (yi * 10 + xi)
    · simp [h1, h2] at h
    case some tri =>
      cases tri with
      | none => simp [h1, h2] at h
      | some sw =>
        simp only [h1, h2] at h
        split_ifs at h <;> simp_all

/-- C1: whenever the `XY_SWITCH` entry for the held property and diagram pair
is `True` or `False`, `_get_update_pair` returns a slot permutation
`(ipos, xpos, ypos, pair)` following the 2×2 switch-by-swap case table
(`(¬switch, ¬swap) ↦ (0,1,2)`, `(switch, ¬swap) ↦ (0,2,1)`,
`(¬switch, swap) ↦ (1,0,2)`, `(switch, swap) ↦ (1,2,0)`); exactly one of the
three quantities occupies the output slot (position 2), the y-axis property is
the output exactly when the switch is `False` and the x-axis property exactly
when it is `True`, and re-resolving the same pair yields the same result. -/
theorem getUpdatePair_table (m : EosModel) (i xi yi : Nat) (sw : Bool)
    (h : xySwitchEntry i xi yi = some (some sw)) :
    ∃ ipos xpos ypos pair,
      getUpdatePair m i xi yi = .ok (ipos, xpos, ypos, pair) ∧
      (ipos, xpos, ypos) =
        (if (if sw then m.genUpdatePair i yi else m.genUpdatePair i xi).2 = 0
         then (if sw then (0, 2, 1) else (0, 1, 2))
         else (if sw then (1, 2, 0) else (1, 0, 2))) ∧
      [ipos, xpos, ypos].count 2 = 1 ∧
      (ypos = 2 ↔ sw = false) ∧ (xpos = 2 ↔ sw = true) ∧
      getUpdatePair m i xi yi = getUpdatePair m i xi yi := by
  unfold xySwitchEntry at h
  cases h1 : dictLookup XY_SWITCH i <;> rw [h1] at h
  · exact absurd h (by simp)
  case some inner =>
    simp only [Option.some_bind] at h
    by_cases hswap : (if sw then m.genUpdatePair i yi else m.genUpdatePair i xi).2 = 0
    · refine ⟨if sw then 0 else 0, if sw then 2 else 1, if sw then 1 else 2,
        (if sw then m.genUpdatePair i yi else m.genUpdatePair i xi).1,
        ?_, ?_, ?_, ?_, ?_, rfl⟩ <;> cases sw <;>
        simp_all [getUpdatePair]
    · refine ⟨if sw then 1 else 1, if sw then 2 else 0, if sw then 0 else 2,
        (if sw then m.genUpdatePair i yi else m.genUpdatePair i xi).1,
        ?_, ?_, ?_, ?_, ?_, rfl⟩ <;> cases sw <;>
        simp_all [getUpdatePair]

/-- `np.resize` of the 0-d held-value array to `n` entries is plain
repetition. -/
theorem npResize_single (v : ℚ) (n : Nat) : npResize [v] n = List.replicate n v := by
  simp [npResize, Nat.mod_one, List.map_const']

/-- The `calc_range` broadcast step with the held-value array in slot 0:
the scalar is repeated to the sweep array's length. -/
theorem broadcast_left (v : ℚ) (l : List ℚ) (h : l ≠ []) :
    (if ([v] : List ℚ).length > l.length then ([v], npResize l ([v] : List ℚ).length)
     else if ([v] : List ℚ).length < l.length then (npResize [v] l.length, l)
     else ([v], l)) = (List.replicate l.length v, l) := by
  have h1 : 1 ≤ l.length := List.length_pos.mpr h
  rcases eq_or_lt_of_le h1 with h2 | h2
  · simp [← h2, npResize_single]
  · simp [Nat.lt_asymm h2, h2, npResize_single]

/-- The `calc_range` broadcast step with the held-value array in slot 1. -/
theorem broadcast_right (v : ℚ) (l : List ℚ) (h : l ≠ []) :
    (if l.length > ([v] : List ℚ).length then (l, npResize [v] l.length)
     else if l.length < ([v] : List ℚ).length then (npResize l ([v] : List ℚ).length, [v])
     else (l, [v])) = (l, List.replicate l.length v) := by
  have h1 : 1 ≤ l.length := List.length_pos.mpr h
  rcases eq_or_lt_of_le h1 with h2 | h2
  · simp [← h2, npResize_single]
  · simp [h2, Nat.lt_asymm h2, npResize_single]

/-- The general shape of a `calc_range` call in which the sweep-input slot is
supplied: the held value is broadcast to the sweep array's length, the sweep
runs with the held value and the sweep array ordered by the swap flag, the
axis at the output slot receives exactly the computed outputs, and the axis at
the sweep slot receives the supplied sweep array unchanged — whatever array
(or `none`) sits in the output slot. -/
theorem calcRange_sweep_eq (m : EosModel) (small : ℚ) (i xi yi : Nat)
    (value : ℚ) (sarr : List ℚ) (zs : Option (List ℚ))
    (ipos xpos ypos pair : Nat)
    (hq : i ≠ iQ)
    (hok : getUpdatePair m i xi yi = .ok (ipos, xpos, ypos, pair))
    (hix : i ≠ xi) (hiy : i ≠ yi) (hxy : xi ≠ yi)
    (hs : sarr ≠ []) :
    calcRange m small i xi yi value
        (if ypos = 2 then some sarr else zs) (if ypos = 2 then zs else some sarr) =
      (let n := sarr.length
       let one := List.replicate n value
       let ab : List ℚ × List ℚ := if ipos = 0 then (one, sarr) else (sarr, one)
       let outKey := if ypos = 2 then yi else xi
       let so := sweepOut m pair outKey ab.1 ab.2
       (.ok (if ypos = 2 then (some (sarr.map some), some so.1)
             else (some so.1, some (sarr.map some))), so.2)) := by
  rcases getUpdatePair_perm m i xi yi ipos xpos ypos pair hok with h4 | h4 | h4 | h4 <;>
    (simp only [Prod.mk.injEq] at h4
     obtain ⟨ha, hb, hc⟩ := h4
     subst ha; subst hb; subst hc) <;>
    simp only [calcRange, if_neg hq, hok, sortByKey, insertByKey, List.foldr,
      show ((0:Nat) ≤ 0) = True by simp, show ((0:Nat) ≤ 1) = True by simp,
      show ((0:Nat) ≤ 2) = True by simp, show ((1:Nat) ≤ 1) = True by simp,
      show ((1:Nat) ≤ 2) = True by simp, show ((2:Nat) ≤ 2) = True by simp,
      show ((1:Nat) ≤ 0) = False by simp, show ((2:Nat) ≤ 0) = False by simp,
      show ((2:Nat) ≤ 1) = False by simp,
      show ((0:Nat) = 2) = False by simp, show ((1:Nat) = 2) = False by simp,
      show ((2:Nat) = 2) = True by simp,
      if_true, if_false, List.map]
  case _ =>  -- (0, 1, 2): no switch, no swap
    rw [broadcast_left value sarr hs]
    simp [pickLast, hix, hxy, Ne.symm hix, Ne.symm hxy, hiy, List.getD]
  case _ =>  -- (0, 2, 1): switch, no swap
    rw [broadcast_left value sarr hs]
    simp [pickLast, hix, hiy, hxy, Ne.symm hix, Ne.symm hiy, Ne.symm hxy, List.getD]
  case _ =>  -- (1, 0, 2): no switch, swap
    rw [broadcast_right value sarr hs]
    simp [pickLast, hix, hiy, hxy, Ne.symm hix, Ne.symm hiy, Ne.symm hxy, List.getD]
  case _ =>  -- (1, 2, 0): switch, swap
    rw [broadcast_right value sarr hs]
    simp [pickLast, hix, hiy, hxy, Ne.symm hix, Ne.symm hiy, Ne.symm hxy, List.getD]

/-- The output array of the `calc_range` sweep loop has one entry per sample. -/
theorem sweepOut_length (m : EosModel) (pair k : Nat) (v0 v1 : List ℚ) :
    (sweepOut m pair k v0 v1).1.length = v0.length := by
  simp [sweepOut]

/-- Entry `j` of the `calc_range` sweep output is the result of the `j`-th
update attempt. -/
theorem sweepOut_getD (m : EosModel) (pair k : Nat) (v0 v1 : List ℚ) (j : Nat)
    (hj : j < v0.length) :
    (sweepOut m pair k v0 v1).1.getD j none =
      (sweepOne m pair k (v0.getD j 0) (v1.getD j 0) j).1 := by
  simp [sweepOut, List.getD_eq_getElem?_getD, List.getElem?_map,
    List.getElem?_range, hj]

/-- A failing sample in the `calc_range` sweep loop emits the warning naming
its inputs and index. -/
theorem sweepOut_warnMem (m : EosModel) (pair k : Nat) (v0 v1 : List ℚ)
    (j : Nat) (hj : j < v0.length)
    (hf : m.updOk pair (v0.getD j 0) (v1.getD j 0) = false) :
    Event.warnSampleError (v0.getD j 0) (v1.getD j 0) j ∈
      (sweepOut m pair k v0 v1).2 := by
  refine List.mem_flatten.mpr
    ⟨(sweepOne m pair k (v0.getD j 0) (v1.getD j 0) j).2, ?_, ?_⟩
  · exact List.mem_map_of_mem _ (List.mem_map_of_mem _ (List.mem_range.mpr hj))
  · simp only [List.getD_eq_getElem?_getD] at hf
    simp [sweepOne, hf]

/-- Both output arrays of the `calc_sat_range` sweep loop have one entry per
sample. -/
theorem satSweepOut_length (m : EosModel) (xi yi pair : Nat) (one two : List ℚ) :
    (satSweepOut m xi yi pair one two).1.1.length = one.length ∧
      (satSweepOut m xi yi pair one two).1.2.length = one.length := by
  constructor <;> simp [satSweepOut]

/-- Entry `j` of the `calc_sat_range` sweep outputs is the result of the
`j`-th update attempt. -/
theorem satSweepOut_getD (m : EosModel) (xi yi pair : Nat) (one two : List ℚ)
    (j : Nat) (hj : j < one.length) :
    (satSweepOut m xi yi pair one two).1.1.getD j none =
        (satSweepOne m xi yi pair (one.getD j 0) (two.getD j 0) j).1.1 ∧
      (satSweepOut m xi yi pair one two).1.2.getD j none =
        (satSweepOne m xi yi pair (one.getD j 0) (two.getD j 0) j).1.2 := by
  constructor <;>
    simp [satSweepOut, List.getD_eq_getElem?_getD, List.getElem?_map,
      List.getElem?_range, hj]

/-- A failing sample in the `calc_sat_range` sweep loop emits the warning
naming its inputs and index. -/
theorem satSweepOut_warnMem (m : EosModel) (xi yi pair : Nat) (one two : List ℚ)
    (j : Nat) (hj : j < one.length)
    (hf : m.updOk pair (one.getD j 0) (two.getD j 0) = false) :
    Event.warnSampleError (one.getD j 0) (two.getD j 0) j ∈
      (satSweepOut m xi yi pair one two).2 := by
  refine List.mem_flatten.mpr
    ⟨(satSweepOne m xi yi pair (one.getD j 0) (two.getD j 0) j).2, ?_, ?_⟩
  · exact List.mem_map_of_mem _ (List.mem_map_of_mem _ (List.mem_range.mpr hj))
  · simp only [List.getD_eq_getElem?_getD] at hf
    simp [satSweepOne, hf]

/-- Every EOS update of the `calc_sat_range` sweep loop uses the input pair
the loop was given. -/
theorem satSweepOut_update_events (m : EosModel) (xi yi pair : Nat)
    (one two : List ℚ) (ev : Event)
    (h : ev ∈ (satSweepOut m xi yi pair one two).2) (hu : ev.isUpdate = true) :
    ∃ a b, ev = .updateCall pair a b := by
  rcases List.mem_flatten.mp h with ⟨l, hl, hev⟩
  rcases List.mem_map.mp hl with ⟨r, hr, rfl⟩
  rcases List.mem_map.mp hr with ⟨j, _, rfl⟩
  simp only [satSweepOne, List.getD_eq_getElem?_getD] at hev
  by_cases h2 : m.updOk pair (one[j]?.getD 0) (two[j]?.getD 0)
  · simp [h2] at hev
    exact ⟨_, _, hev⟩
  · simp [h2] at hev
    rcases hev with rfl | rfl
    · exact ⟨_, _, rfl⟩
    · simp [Event.isUpdate] at hu

/-- With no caller hints, `_get_sat_bounds` performs exactly the one
saturated-state update just above the triple point. -/
theorem getSatBounds_events_noHint (m : EosModel)
    (props : Option (List (Nat × String))) (small : ℚ) (kind : Nat) :
    (getSatBounds m props small kind none none).2 =
      [.updateCall QT_INPUTS 0
        (max (m.trivialOut iT_triple) (m.trivialOut iT_min) + T_small m small)] := by
  unfold getSatBounds
  split_ifs <;> simp [checkBoundHint, apply_ite Prod.snd]

/-! ## Concrete backends used in witnesses and counterexamples -/

/-- A trivial concrete EOS backend: every update succeeds, every property
reads back zero, canonical pair token `42` with the held property first. -/
def testModel : EosModel where
  trivialOut := fun _ => 0
  updOk := fun _ _ _ => true
  out := fun _ _ _ _ => 0
  genUpdatePair := fun _ _ => (42, 0)

/-- A concrete EOS backend that fails exactly when one of the two update
inputs equals `2`, and otherwise reads back `7`. -/
def failModel : EosModel where
  trivialOut := fun _ => 0
  updOk := fun _ a b => if a = 2 ∨ b = 2 then false else true
  out := fun _ _ _ _ => 7
  genUpdatePair := fun _ _ => (42, 0)

/-- A concrete water-like EOS backend for the saturation-bound and axis-limit
claims: critical temperature `100`, critical pressure `1000`, maximum
temperature `120`, triple temperature `2`, minimum temperature `3`; reading
temperature returns the second update input and any other property the
first. -/
def fluidModel : EosModel where
  trivialOut := fun k =>
    if k = iT_critical then 100 else if k = iP_critical then 1000
    else if k = iT_max then 120 else if k = iT_triple then 2
    else if k = iT_min then 3 else 0
  updOk := fun _ _ _ => true
  out := fun _ v0 v1 k => if k = iT then v1 else v0
  genUpdatePair := fun _ _ => (42, 0)

/-- `_get_update_pair` on a `None` entry raises the explicit configuration
`ValueError`, and on an absent dictionary key raises a `KeyError`. -/
theorem getUpdatePair_none_err (m : EosModel) (i xi yi : Nat) :
    (xySwitchEntry i xi yi = some none →
      getUpdatePair m i xi yi =
        .error (.valueError "This isoline cannot be calculated!")) ∧
    (xySwitchEntry i xi yi = none →
      getUpdatePair m i xi yi = .error (.keyError i) ∨
        getUpdatePair m i xi yi = .error (.keyError (yi * 10 + xi))) := by
  unfold xySwitchEntry getUpdatePair
  cases h1 : dictLookup XY_SWITCH i <;> simp [h1]
  case some inner =>
    cases h2 : dictLookup inner (yi * 10 + xi) <;> simp [h2]
    case some tri => cases tri <;> simp

/-- C2 (amended): for a non-quality held property, a `None` entry of
`XY_SWITCH[held][10*y+x]` makes `calc_range` raise the explicit
`ValueError('This isoline cannot be calculated!')`, while an *absent* entry
makes it raise a `KeyError`; in both cases the error is raised with no
`state.update` call having been made (the event trace is empty). -/
theorem calcRange_unsupported (m : EosModel) (small : ℚ) (i xi yi : Nat)
    (value : ℚ) (xv yv : Option (List ℚ)) (hq : i ≠ iQ) :
    (xySwitchEntry i xi yi = some none →
      calcRange m small i xi yi value xv yv =
        (.error (.valueError "This isoline cannot be calculated!"), [])) ∧
    (xySwitchEntry i xi yi = none →
      ∃ k, calcRange m small i xi yi value xv yv = (.error (.keyError k), [])) := by
  constructor
  · intro h
    have h2 := (getUpdatePair_none_err m i xi yi).1 h
    simp [calcRange, if_neg hq, h2]
  · intro h
    rcases (getUpdatePair_none_err m i xi yi).2 h with h2 | h2
    · exact ⟨i, by simp [calcRange, if_neg hq, h2]⟩
    · exact ⟨yi * 10 + xi, by simp [calcRange, if_neg hq, h2]⟩

/-- C2 counterexample: for held density on the pressure–internal-energy
diagram the `XY_SWITCH` inner entry is absent, and `calc_range` raises a
`KeyError`, not the `'This isoline cannot be calculated!'` configuration
`ValueError` the claim asserts. -/
theorem calcRange_absent_entry_counterexample :
    calcRange testModel 1 iDmass iUmass iP 1 (some [1]) none =
      (.error (.keyError (iP * 10 + iUmass)), []) ∧
      PyErr.keyError (iP * 10 + iUmass) ≠
        PyErr.valueError "This isoline cannot be calculated!" := by
  constructor
  · rfl
  · simp

/-- Witness for C2 at held density on the pressure–density diagram, whose
entry is present and `None`. -/
theorem calcRange_unsupported_witness :
    iDmass ≠ iQ ∧
      calcRange testModel 1 iDmass iDmass iP 5 none none =
        (.error (.valueError "This isoline cannot be calculated!"), []) :=
  ⟨by decide,
   (calcRange_unsupported testModel 1 iDmass iDmass iP 5 none none
     (by decide)).1 (by decide)⟩

/-- C6 (amended): for a non-quality held property on a supported
(held, diagram) combination, a `calc_range` call that supplies neither
`xvals` nor `yvals` raises the explicit missing-input `ValueError` before any
sampling begins (the event trace is empty); supplying both arrays, however,
is accepted. -/
theorem calcRange_missing_input (m : EosModel) (small : ℚ) (i xi yi : Nat)
    (value : ℚ) (ipos xpos ypos pair : Nat)
    (hq : i ≠ iQ) (hok : getUpdatePair m i xi yi = .ok (ipos, xpos, ypos, pair)) :
    calcRange m small i xi yi value none none =
      (.error (.valueError missingInputMsg), []) := by
  rcases getUpdatePair_perm m i xi yi ipos xpos ypos pair hok with h4 | h4 | h4 | h4 <;>
    (simp only [Prod.mk.injEq] at h4
     obtain ⟨ha, hb, hc⟩ := h4
     subst ha; subst hb; subst hc) <;>
    simp [calcRange, if_neg hq, hok, sortByKey, insertByKey]

/-- Witness for C6 (amended) at held pressure on a TS diagram. -/
theorem calcRange_missing_input_witness :
    calcRange testModel 1 iP iSmass iT 5 none none =
      (.error (.valueError missingInputMsg), []) :=
  calcRange_missing_input testModel 1 iP iSmass iT 5 0 1 2 42 (by decide) rfl

/-- C6 counterexample: a `calc_range` call with BOTH `xvals` and `yvals`
supplied (held pressure on a TS diagram) does not fail — it returns computed
arrays — so "exactly one of xvals/yvals must be supplied or the call fails"
does not hold. -/
theorem calcRange_missing_input_counterexample :
    calcRange testModel 1 iP iSmass iT 5 (some [1, 2]) (some [3, 4]) =
      (.ok (some [some 1, some 2], some [some 0, some 0]),
       [.updateCall 42 5 1, .updateCall 42 5 2]) := by rfl

/-- C10: with a non-quality held property on a supported combination and both
arrays supplied, `calc_range` raises no error; the array the permutation
assigns to the output slot (`zsl`) is ignored — the result does not depend on
it — and is fully replaced by the computed output values, while the other
supplied array `sarr` is the sweep input, the held value being broadcast to
its length by repetition. -/
theorem calcRange_both_inputs (m : EosModel) (small : ℚ) (i xi yi : Nat)
    (value : ℚ) (sarr zsl : List ℚ) (ipos xpos ypos pair : Nat)
    (hq : i ≠ iQ) (hok : getUpdatePair m i xi yi = .ok (ipos, xpos, ypos, pair))
    (hix : i ≠ xi) (hiy : i ≠ yi) (hxy : xi ≠ yi) (hs : sarr ≠ []) :
    calcRange m small i xi yi value
        (if ypos = 2 then some sarr else some zsl)
        (if ypos = 2 then some zsl else some sarr) =
      (let n := sarr.length
       let one := List.replicate n value
       let ab : List ℚ × List ℚ := if ipos = 0 then (one, sarr) else (sarr, one)
       let outKey := if ypos = 2 then yi else xi
       let so := sweepOut m pair outKey ab.1 ab.2
       (.ok (if ypos = 2 then (some (sarr.map some), some so.1)
             else (some so.1, some (sarr.map some))), so.2)) :=
  calcRange_sweep_eq m small i xi yi value sarr (some zsl) ipos xpos ypos pair
    hq hok hix hiy hxy hs

/-- Witness for C10 at held pressure on a TS diagram, sweep `[1, 3]`,
ignored output-slot array `[9]`. -/
theorem calcRange_both_inputs_witness :
    calcRange testModel 1 iP iSmass iT 5
        (if 2 = 2 then some [(1:ℚ), 3] else some [9])
        (if 2 = 2 then some [(9:ℚ)] else some [1, 3]) =
      (let n := ([(1:ℚ), 3] : List ℚ).length
       let one := List.replicate n (5:ℚ)
       let ab : List ℚ × List ℚ := if (0:Nat) = 0 then (one, [1, 3]) else ([1, 3], one)
       let outKey := if (2:Nat) = 2 then iT else iSmass
       let so := sweepOut testModel 42 outKey ab.1 ab.2
       (.ok (if (2:Nat) = 2 then (some (([(1:ℚ), 3] : List ℚ).map some), some so.1)
             else (some so.1, some (([(1:ℚ), 3] : List ℚ).map some))), so.2)) :=
  calcRange_both_inputs testModel 1 iP iSmass iT 5 [1, 3] [9] 0 1 2 42
    (by decide) rfl (by decide) (by decide) (by decide) (by simp)

/-- Witness for C1 at held pressure on a TS diagram (`XY_SWITCH` entry
`False`). -/
theorem getUpdatePair_table_witness :
    xySwitchEntry iP iSmass iT = some (some false) ∧
      (∃ ipos xpos ypos pair,
        getUpdatePair testModel iP iSmass iT = .ok (ipos, xpos, ypos, pair) ∧
        (ipos, xpos, ypos) =
          (if (if false then testModel.genUpdatePair iP iT
               else testModel.genUpdatePair iP iSmass).2 = 0
           then (if false then (0, 2, 1) else (0, 1, 2))
           else (if false then (1, 2, 0) else (1, 0, 2))) ∧
        [ipos, xpos, ypos].count 2 = 1 ∧
        (ypos = 2 ↔ false = false) ∧ (xpos = 2 ↔ false = true) ∧
        getUpdatePair testModel iP iSmass iT = getUpdatePair testModel iP iSmass iT) :=
  ⟨by decide, getUpdatePair_table testModel iP iSmass iT false (by decide)⟩

/-- An entry of a replicated list below its length. -/
theorem replicate_getD (n : Nat) (v : ℚ) (j : Nat) (hj : j < n) :
    (List.replicate n v).getD j 0 = v := by
  simp [List.getD_eq_getElem?_getD, List.getElem?_replicate, hj]

/-- Every EOS update performed by the default (no-range) path of
`calc_sat_range` uses the saturation input pair `QT_INPUTS`. -/
theorem calcSatRange_default_events_QT (m : EosModel) (small : ℚ)
    (xi yi : Nat) (value : ℚ) (num : Nat) (ev : Event)
    (h : ev ∈ (calcSatRange m small xi yi value none none num).2)
    (hu : ev.isUpdate = true) :
    ∃ a b, ev = .updateCall QT_INPUTS a b := by
  have hevs := getSatBounds_events_noHint m none small iT
  unfold calcSatRange at h
  rcases hsb : getSatBounds m none small iT none none with ⟨sb, evs0⟩
  rw [hsb] at hevs h
  simp only at hevs
  subst hevs
  cases sb with
  | error e =>
    simp at h
    exact ⟨_, _, h⟩
  | ok b =>
    rcases b with ⟨Tlo, Thi⟩
    simp only at h
    rcases List.mem_append.mp h with h2 | h2
    · simp at h2
      exact ⟨_, _, h2⟩
    · exact satSweepOut_update_events m xi yi QT_INPUTS _ _ ev h2 hu

/-- C5: for a quality isoline, `calc_range` emits the redirect warning and
routes to `calc_sat_range`'s default saturation path, forwarding only the
*size* of a supplied array (so two calls whose arrays have equal sizes give
identical results — the array values are discarded), and every EOS update it
performs uses the saturation pair `QT_INPUTS`: it never performs a direct
(non-saturation) sweep. -/
theorem calcRange_quality (m : EosModel) (small : ℚ) (xi yi : Nat)
    (value : ℚ) (xv yv : Option (List ℚ)) :
    (calcRange m small iQ xi yi value xv yv =
      (let r := calcSatRange m small xi yi value none none (qualityNum xv yv)
       ((match r.1 with
         | .error e => .error e
         | .ok xy => .ok (some xy.1, some xy.2)), Event.warnDiscard :: r.2))) ∧
    (∀ xv' yv', qualityNum xv' yv' = qualityNum xv yv →
      calcRange m small iQ xi yi value xv' yv' =
        calcRange m small iQ xi yi value xv yv) ∧
    (∀ ev ∈ (calcRange m small iQ xi yi value xv yv).2, ev.isUpdate = true →
      ∃ a b, ev = .updateCall QT_INPUTS a b) := by
  refine ⟨?_, ?_, ?_⟩
  · rcases h : calcSatRange m small xi yi value none none (qualityNum xv yv)
      with ⟨r1, evs⟩
    cases r1 <;> simp [calcRange, h]
  · intro xv' yv' hnum
    rcases h : calcSatRange m small xi yi value none none (qualityNum xv yv)
      with ⟨r1, evs⟩
    cases r1 <;> simp [calcRange, hnum, h]
  · intro ev hev hu
    rcases h : calcSatRange m small xi yi value none none (qualityNum xv yv)
      with ⟨r1, evs⟩
    have hevs : ev ∈ Event.warnDiscard :: evs := by
      cases r1 <;> simp only [calcRange, h, if_pos rfl] at hev <;> exact hev
    rcases List.mem_cons.mp hevs with rfl | h2
    · simp [Event.isUpdate] at hu
    · exact calcSatRange_default_events_QT m small xi yi value (qualityNum xv yv)
        ev (by rw [h]; exact h2) hu

/-- Witness for C5: two quality `calc_range` calls whose supplied arrays have
the same size coincide. -/
theorem calcRange_quality_witness :
    calcRange testModel 1 iQ iHmass iP 5 (some [9, 9]) none =
      calcRange testModel 1 iQ iHmass iP 5 (some [1, 2]) none :=
  (calcRange_quality testModel 1 iHmass iP 5 (some [1, 2]) none).2.1
    (some [9, 9]) none rfl

/-- Failure isolation in a `calc_range` sweep: a single failing sample gives
a full-length output with `none` exactly there, plus the warning. -/
theorem calcRange_isolation_aux (m : EosModel) (small : ℚ) (i xi yi : Nat)
    (value : ℚ) (sarr : List ℚ) (n k ipos xpos ypos pair : Nat)
    (hq : i ≠ iQ)
    (hok : getUpdatePair m i xi yi = .ok (ipos, xpos, ypos, pair))
    (hix : i ≠ xi) (hiy : i ≠ yi) (hxy : xi ≠ yi)
    (hn : sarr.length = n) (hk : k < n)
    (hfail1 : ∀ j, j < n → ((m.updOk pair value (sarr.getD j 0) = false) ↔ j = k))
    (hfail2 : ∀ j, j < n → ((m.updOk pair (sarr.getD j 0) value = false) ↔ j = k)) :
    ∃ O evs,
      calcRange m small i xi yi value
          (if ypos = 2 then some sarr else none)
          (if ypos = 2 then none else some sarr) =
        (.ok (if ypos = 2 then (some (sarr.map some), some O)
              else (some O, some (sarr.map some))), evs) ∧
      O.length = n ∧
      (∀ j, j < n → (O.getD j none = none ↔ j = k)) ∧
      (∃ a b, Event.warnSampleError a b k ∈ evs) := by
  have hs : sarr ≠ [] := by
    intro he
    rw [he] at hn
    simp only [List.length_nil] at hn
    omega
  have heq := calcRange_sweep_eq m small i xi yi value sarr none ipos xpos ypos
    pair hq hok hix hiy hxy hs
  by_cases hip : ipos = 0
  · rw [heq]
    simp only [hip, if_pos rfl]
    refine ⟨(sweepOut m pair (if ypos = 2 then yi else xi)
        (List.replicate sarr.length value) sarr).1,
      (sweepOut m pair (if ypos = 2 then yi else xi)
        (List.replicate sarr.length value) sarr).2, rfl, ?_, ?_, ?_⟩
    · rw [sweepOut_length]
      simp [hn]
    · intro j hj
      have hj' : j < (List.replicate sarr.length value).length := by simp [hn, hj]
      rw [sweepOut_getD _ _ _ _ _ j hj', replicate_getD _ _ _ (by simp [hn, hj])]
      have hc := hfail1 j hj
      cases hcu : m.updOk pair value (sarr.getD j 0)
      · simp only [sweepOne, hcu]
        simp [hc.mp hcu]
      · rw [hcu] at hc
        simp only [sweepOne, hcu]
        simp
        intro he
        exact absurd (hc.mpr he) (by simp)
    · refine ⟨value, sarr.getD k 0, ?_⟩
      have hf : m.updOk pair ((List.replicate sarr.length value).getD k 0)
          (sarr.getD k 0) = false := by
        rw [replicate_getD _ _ _ (by simp [hn, hk])]
        exact (hfail1 k hk).mpr rfl
      have := sweepOut_warnMem m pair (if ypos = 2 then yi else xi)
        (List.replicate sarr.length value) sarr k (by simp [hn, hk]) hf
      rwa [replicate_getD _ _ _ (by simp [hn, hk])] at this
  · rw [heq]
    simp only [if_neg hip]
    refine ⟨(sweepOut m pair (if ypos = 2 then yi else xi)
        sarr (List.replicate sarr.length value)).1,
      (sweepOut m pair (if ypos = 2 then yi else xi)
        sarr (List.replicate sarr.length value)).2, rfl, ?_, ?_, ?_⟩
    · rw [sweepOut_length, hn]
    · intro j hj
      have hj' : j < sarr.length := by omega
      rw [sweepOut_getD _ _ _ _ _ j hj', replicate_getD _ _ _ (by simp [hn, hj])]
      have hc := hfail2 j hj
      cases hcu : m.updOk pair (sarr.getD j 0) value
      · simp only [sweepOne, hcu]
        simp [hc.mp hcu]
      · rw [hcu] at hc
        simp only [sweepOne, hcu]
        simp
        intro he
        exact absurd (hc.mpr he) (by simp)
    · refine ⟨sarr.getD k 0, value, ?_⟩
      have hf : m.updOk pair (sarr.getD k 0)
          ((List.replicate sarr.length value).getD k 0) = false := by
        rw [replicate_getD _ _ _ (by simp [hn, hk])]
        exact (hfail2 k hk).mpr rfl
      have := sweepOut_warnMem m pair (if ypos = 2 then yi else xi)
        sarr (List.replicate sarr.length value) k (by omega) hf
      rwa [replicate_getD _ _ _ (by simp [hn, hk])] at this

/-- Failure isolation in a `calc_sat_range` sweep over a supplied temperature
range. -/
theorem calcSatRange_isolation_aux (m : EosModel) (small : ℚ) (xi yi : Nat)
    (value : ℚ) (sarr : List ℚ) (n k num : Nat)
    (hn : sarr.length = n) (hk : k < n)
    (hfailq : ∀ j, j < n →
      ((m.updOk QT_INPUTS value (sarr.getD j 0) = false) ↔ j = k)) :
    ∃ X Y evs,
      calcSatRange m small xi yi value (some sarr) none num = (.ok (X, Y), evs) ∧
      X.length = n ∧ Y.length = n ∧
      (∀ j, j < n →
        ((X.getD j none = none ↔ j = k) ∧ (Y.getD j none = none ↔ j = k))) ∧
      Event.warnSampleError value (sarr.getD k 0) k ∈ evs := by
  have hone : npResize [value] sarr.length = List.replicate sarr.length value :=
    npResize_single value sarr.length
  have hlen : (npResize [value] sarr.length).length = sarr.length := by
    rw [hone]; simp
  refine ⟨(satSweepOut m xi yi QT_INPUTS (npResize [value] sarr.length) sarr).1.1,
    (satSweepOut m xi yi QT_INPUTS (npResize [value] sarr.length) sarr).1.2,
    (satSweepOut m xi yi QT_INPUTS (npResize [value] sarr.length) sarr).2,
    rfl, ?_, ?_, ?_, ?_⟩
  · rw [(satSweepOut_length m xi yi QT_INPUTS _ sarr).1, hlen, hn]
  · rw [(satSweepOut_length m xi yi QT_INPUTS _ sarr).2, hlen, hn]
  · intro j hj
    have hj' : j < (npResize [value] sarr.length).length := by omega
    have hval : (npResize [value] sarr.length).getD j 0 = value := by
      rw [hone]; exact replicate_getD _ _ _ (by omega)
    obtain ⟨hX, hY⟩ := satSweepOut_getD m xi yi QT_INPUTS _ sarr j hj'
    rw [hX, hY, hval]
    have hc := hfailq j hj
    cases hcu : m.updOk QT_INPUTS value (sarr.getD j 0)
    · constructor <;>
        (simp only [satSweepOne, hcu]
         simp [hc.mp hcu])
    · rw [hcu] at hc
      constructor <;>
        (simp only [satSweepOne, hcu]
         simp
         intro he
         exact absurd (hc.mpr he) (by simp))
  · have hf : m.updOk QT_INPUTS ((List.replicate sarr.length value).getD k 0)
        (sarr.getD k 0) = false := by
      rw [replicate_getD _ _ _ (by omega)]
      exact (hfailq k hk).mpr rfl
    have hmem := satSweepOut_warnMem m xi yi QT_INPUTS
      (List.replicate sarr.length value) sarr k (by simp; omega) hf
    rw [replicate_getD _ _ _ (by omega)] at hmem
    rw [hone]
    exact hmem

/-- C3: if the EOS backend fails at exactly one sample index `k` of a sweep
(in either update-argument orientation and for either the resolved direct
pair or the saturation pair), then both `calc_range` and `calc_sat_range`
complete without raising, return arrays of the full expected length, hold
`np.NaN` (`none`) exactly at index `k` of the computed output array(s) and a
computed value at every other index, and emit a warning identifying the
offending inputs and the index. -/
theorem calc_failure_isolation (m : EosModel) (small : ℚ) (i xi yi : Nat)
    (value : ℚ) (sarr : List ℚ) (n k num : Nat)
    (ipos xpos ypos pair : Nat)
    (hq : i ≠ iQ)
    (hok : getUpdatePair m i xi yi = .ok (ipos, xpos, ypos, pair))
    (hix : i ≠ xi) (hiy : i ≠ yi) (hxy : xi ≠ yi)
    (hn : sarr.length = n) (hk : k < n)
    (hfail : ∀ j, j < n → ∀ pr, (pr = pair ∨ pr = QT_INPUTS) →
      ((m.updOk pr value (sarr.getD j 0) = false) ↔ j = k) ∧
      ((m.updOk pr (sarr.getD j 0) value = false) ↔ j = k)) :
    (∃ O evs,
      calcRange m small i xi yi value
          (if ypos = 2 then some sarr else none)
          (if ypos = 2 then none else some sarr) =
        (.ok (if ypos = 2 then (some (sarr.map some), some O)
              else (some O, some (sarr.map some))), evs) ∧
      O.length = n ∧
      (∀ j, j < n → (O.getD j none = none ↔ j = k)) ∧
      (∃ a b, Event.warnSampleError a b k ∈ evs)) ∧
    (∃ X Y evs,
      calcSatRange m small xi yi value (some sarr) none num = (.ok (X, Y), evs) ∧
      X.length = n ∧ Y.length = n ∧
      (∀ j, j < n →
        ((X.getD j none = none ↔ j = k) ∧ (Y.getD j none = none ↔ j = k))) ∧
      Event.warnSampleError value (sarr.getD k 0) k ∈ evs) := by
  constructor
  · exact calcRange_isolation_aux m small i xi yi value sarr n k ipos xpos ypos
      pair hq hok hix hiy hxy hn hk
      (fun j hj => (hfail j hj pair (Or.inl rfl)).1)
      (fun j hj => (hfail j hj pair (Or.inl rfl)).2)
  · exact calcSatRange_isolation_aux m small xi yi value sarr n k num hn hk
      (fun j hj => (hfail j hj QT_INPUTS (Or.inr rfl)).1)

/-- The temperature just above the triple point at which `_get_sat_bounds`
evaluates the saturated state: `max(T_triple, T_min) + T_small`. -/
def satTLow (m : EosModel) (small : ℚ) : ℚ :=
  max (m.trivialOut iT_triple) (m.trivialOut iT_min) + T_small m small

/-- The fluid-derived lower saturation bound `fluid_min` of
`_get_sat_bounds`: the property `kind` read back after the saturated update. -/
def satFluidMin (m : EosModel) (small : ℚ) (kind : Nat) : ℚ :=
  m.out QT_INPUTS 0 (satTLow m small) kind

/-- The fluid-derived upper saturation bound `fluid_max` of
`_get_sat_bounds`: the critical value minus the small epsilon. -/
def satFluidMax (m : EosModel) (small : ℚ) (kind : Nat) : ℚ :=
  if kind = iP then m.trivialOut iP_critical - P_small m small
  else m.trivialOut iT_critical - T_small m small

/-- An out-of-range hint is replaced by the fallback bound, with the warning
citing the hint value. -/
theorem checkBoundHint_out (props : List (Nat × String)) (kind : Nat)
    (isMax : Bool) (fmin fmax fb s : ℚ) (name : String)
    (hout : ¬ (fmin < s ∧ s < fmax)) (hname : dictLookup props kind = some name) :
    checkBoundHint (some props) kind isMax fmin fmax fb (some s) =
      (.ok fb, [.warnIgnoredBound name isMax s fmin fmax]) := by
  simp [checkBoundHint, hout, hname]

/-- An absent hint is replaced by the fallback bound with no warning. -/
theorem checkBoundHint_none (props : Option (List (Nat × String))) (kind : Nat)
    (isMax : Bool) (fmin fmax fb : ℚ) :
    checkBoundHint props kind isMax fmin fmax fb none = (.ok fb, []) := rfl

/-- Evaluation of `_get_sat_bounds` for a temperature or pressure kind when
both hint checks succeed. -/
theorem getSatBounds_ok (m : EosModel) (props : Option (List (Nat × String)))
    (small : ℚ) (kind : Nat) (smin smax : Option ℚ)
    (hupd : m.updOk QT_INPUTS 0 (satTLow m small) = true)
    (hk : kind = iP ∨ kind = iT)
    (r1 : ℚ) (ev1 : List Event) (r2 : ℚ) (ev2 : List Event)
    (h1 : checkBoundHint props kind false (satFluidMin m small kind)
      (satFluidMax m small kind) (satFluidMin m small kind) smin = (.ok r1, ev1))
    (h2 : checkBoundHint props kind true (satFluidMin m small kind)
      (satFluidMax m small kind) (satFluidMax m small kind) smax = (.ok r2, ev2)) :
    getSatBounds m props small kind smin smax =
      (.ok (r1, r2),
       .updateCall QT_INPUTS 0 (satTLow m small) :: (ev1 ++ ev2)) := by
  rcases hk with rfl | rfl <;>
    (simp only [satFluidMin, satFluidMax, satTLow, T_small,
       show ((iP = iP) = True) by simp, show ((iT = iP) = False) by simp [iT, iP],
       show ((iT = iT) = True) by simp, if_true, if_false] at h1 h2
     simp only [satTLow, T_small] at hupd
     simp only [getSatBounds, satTLow, T_small,
       show ((iP = iP) = True) by simp, show ((iT = iP) = False) by simp [iT, iP],
       show ((iT = iT) = True) by simp, if_true, if_false]
     simp [hupd, h1, h2])

/-- C7: a caller-supplied `smin` or `smax` lying outside the open interval
`(fluid_min, fluid_max)` is ignored by `_get_sat_bounds`: the call still
succeeds (it never raises because of the hint), it returns the same bounds as
the hint-free call, and it emits a warning citing the out-of-range value. -/
theorem getSatBounds_out_of_range (m : EosModel) (small : ℚ) (kind : Nat)
    (s : ℚ) (hkind : kind = iT ∨ kind = iP)
    (hupd : m.updOk QT_INPUTS 0 (satTLow m small) = true)
    (hout : ¬ (satFluidMin m small kind < s ∧ s < satFluidMax m small kind)) :
    (∃ b evs name,
      getSatBounds m (some PROPERTIES) small kind (some s) none = (.ok b, evs) ∧
      (getSatBounds m (some PROPERTIES) small kind none none).1 = .ok b ∧
      Event.warnIgnoredBound name false s (satFluidMin m small kind)
        (satFluidMax m small kind) ∈ evs) ∧
    (∃ b evs name,
      getSatBounds m (some PROPERTIES) small kind none (some s) = (.ok b, evs) ∧
      (getSatBounds m (some PROPERTIES) small kind none none).1 = .ok b ∧
      Event.warnIgnoredBound name true s (satFluidMin m small kind)
        (satFluidMax m small kind) ∈ evs) := by
  have hname : ∃ name, dictLookup PROPERTIES kind = some name := by
    rcases hkind with rfl | rfl
    · exact ⟨"temperature", by decide⟩
    · exact ⟨"pressure", by decide⟩
  obtain ⟨name, hname⟩ := hname
  have hk' : kind = iP ∨ kind = iT := hkind.symm
  have hnone := getSatBounds_ok m (some PROPERTIES) small kind none none hupd hk'
    (satFluidMin m small kind) [] (satFluidMax m small kind) []
    (checkBoundHint_none _ _ _ _ _ _) (checkBoundHint_none _ _ _ _ _ _)
  constructor
  · refine ⟨(satFluidMin m small kind, satFluidMax m small kind),
      [.updateCall QT_INPUTS 0 (satTLow m small),
       .warnIgnoredBound name false s (satFluidMin m small kind)
         (satFluidMax m small kind)], name, ?_, ?_, ?_⟩
    · have h := getSatBounds_ok m (some PROPERTIES) small kind (some s) none hupd hk'
        (satFluidMin m small kind)
        [.warnIgnoredBound name false s (satFluidMin m small kind)
          (satFluidMax m small kind)]
        (satFluidMax m small kind) []
        (checkBoundHint_out _ _ _ _ _ _ _ name hout hname)
        (checkBoundHint_none _ _ _ _ _ _)
      simpa using h
    · rw [hnone]
    · simp
  · refine ⟨(satFluidMin m small kind, satFluidMax m small kind),
      [.updateCall QT_INPUTS 0 (satTLow m small),
       .warnIgnoredBound name true s (satFluidMin m small kind)
         (satFluidMax m small kind)], name, ?_, ?_, ?_⟩
    · have h := getSatBounds_ok m (some PROPERTIES) small kind none (some s) hupd hk'
        (satFluidMin m small kind) []
        (satFluidMax m small kind)
        [.warnIgnoredBound name true s (satFluidMin m small kind)
          (satFluidMax m small kind)]
        (checkBoundHint_none _ _ _ _ _ _)
        (checkBoundHint_out _ _ _ _ _ _ _ name hout hname)
      simpa using h
    · rw [hnone]
    · simp

/-- Witness for C7: the water-like fluid with a hint below the valid range. -/
theorem getSatBounds_out_of_range_witness :
    ((iT : Nat) = iT ∨ (iT : Nat) = iP) ∧
      ((∃ b evs name,
        getSatBounds fluidModel (some PROPERTIES) (1/100) iT (some 1) none =
          (.ok b, evs) ∧
        (getSatBounds fluidModel (some PROPERTIES) (1/100) iT none none).1 = .ok b ∧
        Event.warnIgnoredBound name false 1 (satFluidMin fluidModel (1/100) iT)
          (satFluidMax fluidModel (1/100) iT) ∈ evs) ∧
      (∃ b evs name,
        getSatBounds fluidModel (some PROPERTIES) (1/100) iT none (some 1) =
          (.ok b, evs) ∧
        (getSatBounds fluidModel (some PROPERTIES) (1/100) iT none none).1 = .ok b ∧
        Event.warnIgnoredBound name true 1 (satFluidMin fluidModel (1/100) iT)
          (satFluidMax fluidModel (1/100) iT) ∈ evs)) :=
  ⟨Or.inl rfl,
   getSatBounds_out_of_range fluidModel (1/100) iT 1 (Or.inl rfl)
     (by norm_num [fluidModel])
     (by
       norm_num [satFluidMin, satFluidMax, satTLow, T_small, fluidModel,
         iT, iP, iT_critical, iP_critical, iT_triple, iT_min, iT_max])⟩

/-- C8: `_get_sat_bounds` with kind temperature returns
`(fluid_min, fluid_max)` where the lower bound is the saturated value read
just above `max(T_triple, T_min) + T_small` and the upper bound is the
critical temperature minus `T_small`, with `fluid_min < fluid_max` and
`fluid_max` strictly below the critical temperature; any kind other than
temperature or pressure raises a `ValueError`. -/
theorem getSatBounds_temperature (m : EosModel)
    (props : Option (List (Nat × String))) (small : ℚ)
    (hupd : m.updOk QT_INPUTS 0 (satTLow m small) = true)
    (hread : m.out QT_INPUTS 0 (satTLow m small) iT = satTLow m small)
    (hlt : satTLow m small < m.trivialOut iT_critical - T_small m small)
    (hsm : 0 < T_small m small) :
    getSatBounds m props small iT none none =
      (.ok (satTLow m small, m.trivialOut iT_critical - T_small m small),
       [.updateCall QT_INPUTS 0 (satTLow m small)]) ∧
    satTLow m small < m.trivialOut iT_critical - T_small m small ∧
    m.trivialOut iT_critical - T_small m small < m.trivialOut iT_critical ∧
    (∀ kind, kind ≠ iT → kind ≠ iP →
      (getSatBounds m props small kind none none).1 =
        .error (.valueError satBoundsKindMsg)) := by
  refine ⟨?_, hlt, by linarith, ?_⟩
  · have h := getSatBounds_ok m props small iT none none hupd (Or.inr rfl)
      (satFluidMin m small iT) [] (satFluidMax m small iT) []
      (checkBoundHint_none _ _ _ _ _ _) (checkBoundHint_none _ _ _ _ _ _)
    rw [h]
    have hmin : satFluidMin m small iT = satTLow m small := by
      simp [satFluidMin, hread]
    have hmax : satFluidMax m small iT =
        m.trivialOut iT_critical - T_small m small := by
      simp [satFluidMax, show ¬ iT = iP by decide]
    rw [hmin, hmax]
    simp
  · intro kind hT hP
    simp only [getSatBounds, satTLow, T_small] at hupd ⊢
    simp [hupd, hT, hP]

/-- Witness for C8 on the water-like fluid. -/
theorem getSatBounds_temperature_witness :
    getSatBounds fluidModel none (1/100) iT none none =
      (.ok (satTLow fluidModel (1/100),
            fluidModel.trivialOut iT_critical - T_small fluidModel (1/100)),
       [.updateCall QT_INPUTS 0 (satTLow fluidModel (1/100))]) ∧
    satTLow fluidModel (1/100) <
      fluidModel.trivialOut iT_critical - T_small fluidModel (1/100) ∧
    fluidModel.trivialOut iT_critical - T_small fluidModel (1/100) <
      fluidModel.trivialOut iT_critical ∧
    (∀ kind, kind ≠ iT → kind ≠ iP →
      (getSatBounds fluidModel none (1/100) kind none none).1 =
        .error (.valueError satBoundsKindMsg)) :=
  getSatBounds_temperature fluidModel none (1/100)
    (by norm_num [fluidModel])
    (by norm_num [fluidModel, satTLow, T_small, iT, iT_critical, iP_critical,
      iT_triple, iT_min, iT_max])
    (by norm_num [fluidModel, satTLow, T_small, iT_critical, iP_critical,
      iT_triple, iT_min, iT_max])
    (by norm_num [fluidModel, T_small, iT_critical])

/-- Witness for C3: the backend failing exactly at index 1 of the sweep
`[1, 2, 3]` (held pressure on a TS diagram). -/
theorem calc_failure_isolation_witness :
    (∃ O evs,
      calcRange failModel 1 iP iSmass iT 5
          (if 2 = 2 then some [(1:ℚ), 2, 3] else none)
          (if 2 = 2 then none else some [(1:ℚ), 2, 3]) =
        (.ok (if 2 = 2 then (some (([(1:ℚ), 2, 3] : List ℚ).map some), some O)
              else (some O, some (([(1:ℚ), 2, 3] : List ℚ).map some))), evs) ∧
      O.length = 3 ∧
      (∀ j, j < 3 → (O.getD j none = none ↔ j = 1)) ∧
      (∃ a b, Event.warnSampleError a b 1 ∈ evs)) ∧
    (∃ X Y evs,
      calcSatRange failModel 1 iSmass iT 5 (some [1, 2, 3]) none 7 =
        (.ok (X, Y), evs) ∧
      X.length = 3 ∧ Y.length = 3 ∧
      (∀ j, j < 3 →
        ((X.getD j none = none ↔ j = 1) ∧ (Y.getD j none = none ↔ j = 1))) ∧
      Event.warnSampleError 5 (([1, 2, 3] : List ℚ).getD 1 0) 1 ∈ evs) :=
  calc_failure_isolation failModel 1 iP iSmass iT 5 [1, 2, 3] 3 1 7 0 1 2 42
    (by decide) rfl (by decide) (by decide) (by decide) rfl (by decide)
    (by
      intro j hj pr hpr
      interval_cases j <;>
        exact ⟨by norm_num [failModel], by norm_num [failModel]⟩)

/-- The four pressure–temperature corners `get_axis_limits` evaluates: the
low factor is `1.1`, the high factor `2.0`, and the upper temperature corner
is clamped to the fluid's maximum temperature. -/
def cornersOf (Tlo Thi Plo Phi Tmax : ℚ) : List (ℚ × ℚ) :=
  [(11/10 * Plo, 11/10 * Tlo), (2 * Phi, 11/10 * Tlo),
   (11/10 * Plo, min (2 * Thi) Tmax), (2 * Phi, min (2 * Thi) Tmax)]

/-- C9 (amended): with autoscaling active on both axes and the plot's own
axis properties requested, `get_axis_limits` computes the default limits by
evaluating the EOS state at the four pressure–temperature corners with
factors `lo = 1.1`, `hi = 2.0`, where — unlike the claim — the upper
temperature corner is `min(hi*T_hi, T_max)` (clamped to the fluid's maximum
temperature); each corner is converted to the requested x/y properties and
the per-axis minima and maxima (converted through the unit system) become the
limits. -/
theorem get_axis_limits_corners (m : EosModel) (sys : UnitSystem) (ax : Axis)
    (small : ℚ) (sx sy : Nat)
    (Tlo Thi Plo Phi : ℚ) (evT evP : List Event)
    (dimx dimy : BaseDimension)
    (hax : ax.autoscalex = true) (hay : ax.autoscaley = true)
    (hT : getSatBounds m (some PROPERTIES) small iT none none =
      (.ok (Tlo, Thi), evT))
    (hP : getSatBounds m (some PROPERTIES) small iP none none =
      (.ok (Plo, Phi), evP))
    (hupd : ∀ P T, m.updOk PT_INPUTS P T = true)
    (hdx : dictLookup sys.dimensions sx = some dimx)
    (hdy : dictLookup sys.dimensions sy = some dimy) :
    get_axis_limits m sys ax small sx sy none none =
      (.ok
        ([dimx.from_SI (listMin ((cornersOf Tlo Thi Plo Phi
            (m.trivialOut iT_max)).map (fun c => m.out PT_INPUTS c.1 c.2 sx))),
          dimx.from_SI (listMax ((cornersOf Tlo Thi Plo Phi
            (m.trivialOut iT_max)).map (fun c => m.out PT_INPUTS c.1 c.2 sx))),
          dimy.from_SI (listMin ((cornersOf Tlo Thi Plo Phi
            (m.trivialOut iT_max)).map (fun c => m.out PT_INPUTS c.1 c.2 sy))),
          dimy.from_SI (listMax ((cornersOf Tlo Thi Plo Phi
            (m.trivialOut iT_max)).map (fun c => m.out PT_INPUTS c.1 c.2 sy)))],
         { ax with
           xlim := (dimx.from_SI (listMin ((cornersOf Tlo Thi Plo Phi
               (m.trivialOut iT_max)).map (fun c => m.out PT_INPUTS c.1 c.2 sx))),
             dimx.from_SI (listMax ((cornersOf Tlo Thi Plo Phi
               (m.trivialOut iT_max)).map (fun c => m.out PT_INPUTS c.1 c.2 sx))))
           ylim := (dimy.from_SI (listMin ((cornersOf Tlo Thi Plo Phi
               (m.trivialOut iT_max)).map (fun c => m.out PT_INPUTS c.1 c.2 sy))),
             dimy.from_SI (listMax ((cornersOf Tlo Thi Plo Phi
               (m.trivialOut iT_max)).map (fun c => m.out PT_INPUTS c.1 c.2 sy)))) }),
       evT ++ evP ++
         (cornersOf Tlo Thi Plo Phi (m.trivialOut iT_max)).map
           (fun c => .updateCall PT_INPUTS c.1 c.2)) := by
  simp only [get_axis_limits, Option.getD, hT, hP, hdx, hdy, hax, hay,
    cornerEval, hupd, cornersOf, List.map, List.flatten, listMin, listMax,
    List.foldl, if_true, or_true, true_or, ite_true]

/-- C9 counterexample: on the water-like fluid, whose maximum temperature
(120) lies below twice the upper saturation temperature bound (2·100), the
temperature-axis upper limit computed by `get_axis_limits` is the clamped
`min(2*T_hi, T_max) = 120`, while the claim's corner prescription
(`hiFactor*T_hi` with no clamp, as in `get_axis_limits_spec`) yields `200`:
the claim omits the `T_max` clamp. -/
theorem get_axis_limits_counterexample :
    (get_axis_limits fluidModel SIunits ⟨true, true, (0, 0), (0, 0)⟩ 0
        iT iP none none).1 =
      .ok ([33/10, 120, 0, 2000], ⟨true, true, (33/10, 120), (0, 2000)⟩) ∧
    (get_axis_limits_spec fluidModel SIunits ⟨true, true, (0, 0), (0, 0)⟩ 0
        iT iP none none).1 =
      .ok ([33/10, 200, 0, 2000], ⟨true, true, (33/10, 200), (0, 2000)⟩) ∧
    ([33/10, 120, 0, 2000] : List ℚ) ≠ [33/10, 200, 0, 2000] := by
  have hdx : dictLookup SIunits.dimensions iT = some SIunits.T := by
    simp [dictLookup, UnitSystem.dimensions, List.find?,
      iDmass, iHmass, iP, iSmass, iT]
  have hdy : dictLookup SIunits.dimensions iP = some SIunits.P := by
    simp [dictLookup, UnitSystem.dimensions, List.find?,
      iDmass, iHmass, iP, iSmass, iT]
  have hfromT : ∀ x : ℚ, SIunits.T.from_SI x = x := by
    intro x
    simp [SIunits, BaseDimension.from_SI]
  have hfromP : ∀ x : ℚ, SIunits.P.from_SI x = x := by
    intro x
    simp [SIunits, BaseDimension.from_SI]
  refine ⟨?_, ?_, by norm_num⟩ <;>
    norm_num [get_axis_limits, get_axis_limits_spec, getSatBounds,
      checkBoundHint, T_small, P_small, cornerEval, listMin, listMax,
      hdx, hdy, hfromT, hfromP, fluidModel,
      show ((iT = iP) = False) by simp [iT, iP],
      show ((iP = iT) = False) by simp [iT, iP],
      show ((iT_triple = iT_critical) = False) by simp [iT_triple, iT_critical],
      show ((iT_triple = iP_critical) = False) by simp [iT_triple, iP_critical],
      show ((iT_triple = iT_max) = False) by simp [iT_triple, iT_max],
      show ((iT_min = iT_critical) = False) by simp [iT_min, iT_critical],
      show ((iT_min = iP_critical) = False) by simp [iT_min, iP_critical],
      show ((iT_min = iT_max) = False) by simp [iT_min, iT_max],
      show ((iT_min = iT_triple) = False) by simp [iT_min, iT_triple],
      show ((iT_max = iT_critical) = False) by simp [iT_max, iT_critical],
      show ((iT_max = iP_critical) = False) by simp [iT_max, iP_critical],
      show ((iP_critical = iT_critical) = False) by simp [iP_critical, iT_critical]]

/-- Witness for C9 (amended) on the water-like fluid with SI units and
autoscaling active. -/
theorem get_axis_limits_corners_witness :
    (let c := cornersOf 3 100 0 1000 (fluidModel.trivialOut iT_max)
     let Xs := c.map (fun p => fluidModel.out PT_INPUTS p.1 p.2 iT)
     let Ys := c.map (fun p => fluidModel.out PT_INPUTS p.1 p.2 iP)
     get_axis_limits fluidModel SIunits ⟨true, true, (0, 0), (0, 0)⟩ 0
         iT iP none none =
       (.ok ([SIunits.T.from_SI (listMin Xs), SIunits.T.from_SI (listMax Xs),
              SIunits.P.from_SI (listMin Ys), SIunits.P.from_SI (listMax Ys)],
             ⟨true, true,
              (SIunits.T.from_SI (listMin Xs), SIunits.T.from_SI (listMax Xs)),
              (SIunits.P.from_SI (listMin Ys), SIunits.P.from_SI (listMax Ys))⟩),
        [Event.updateCall QT_INPUTS 0 3] ++ [Event.updateCall QT_INPUTS 0 3] ++
          c.map (fun p => Event.updateCall PT_INPUTS p.1 p.2))) :=
  get_axis_limits_corners fluidModel SIunits ⟨true, true, (0, 0), (0, 0)⟩ 0
    iT iP 3 100 0 1000
    [Event.updateCall QT_INPUTS 0 3] [Event.updateCall QT_INPUTS 0 3]
    SIunits.T SIunits.P rfl rfl
    (by
      norm_num [getSatBounds, checkBoundHint, T_small, P_small, fluidModel,
        show ((iT = iP) = False) by simp [iT, iP],
        show ((iT_triple = iT_critical) = False) by simp [iT_triple, iT_critical],
        show ((iT_triple = iP_critical) = False) by simp [iT_triple, iP_critical],
        show ((iT_triple = iT_max) = False) by simp [iT_triple, iT_max],
        show ((iT_min = iT_critical) = False) by simp [iT_min, iT_critical],
        show ((iT_min = iP_critical) = False) by simp [iT_min, iP_critical],
        show ((iT_min = iT_max) = False) by simp [iT_min, iT_max],
        show ((iT_min = iT_triple) = False) by simp [iT_min, iT_triple]])
    (by
      norm_num [getSatBounds, checkBoundHint, T_small, P_small, fluidModel,
        show ((iP = iT) = False) by simp [iT, iP],
        show ((iT_triple = iT_critical) = False) by simp [iT_triple, iT_critical],
        show ((iT_triple = iP_critical) = False) by simp [iT_triple, iP_critical],
        show ((iT_triple = iT_max) = False) by simp [iT_triple, iT_max],
        show ((iT_min = iT_critical) = False) by simp [iT_min, iT_critical],
        show ((iT_min = iP_critical) = False) by simp [iT_min, iP_critical],
        show ((iT_min = iT_max) = False) by simp [iT_min, iT_max],
        show ((iT_min = iT_triple) = False) by simp [iT_min, iT_triple],
        show ((iP_critical = iT_critical) = False) by
          simp [iP_critical, iT_critical]])
    (fun P T => rfl)
    (by simp [dictLookup, UnitSystem.dimensions, List.find?,
      iDmass, iHmass, iP, iSmass, iT])
    (by simp [dictLookup, UnitSystem.dimensions, List.find?,
      iDmass, iHmass, iP, iSmass, iT])

end CoolPropPlots
